import Mathlib

/-
Verification of the range-matching core of AWS-Region-Finder (src/lib.rs).

Shallow embedding conventions:
  * IPv4 addresses are Nat values reduced mod 2^32, IPv6 mod 2^128.
  * The external CIDR parsers (ipnet's FromStr for Ipv4Net/Ipv6Net) and the
    external address parser (std's IpAddr FromStr) are parameters of the
    embedded functions, as they are library code outside this repository.
  * Rust panics (the unwrap calls in calculate_aws_response) are modelled by
    the RustOutcome.panicked constructor.
  * The process-wide RwLock<Option<Arc<AWSResponse>>> cache is modelled by
    explicit state passing of an Option AWSResponse slot.
  * Field names: the Rust fields ip_prefix / ipv6_prefix are here called
    cidr_text (noted again at each structure); everything else keeps its
    source name.
-/

/-- Model of ipnet's Ipv4Net: a 32-bit network address plus mask length. -/
structure Ipv4Net where
  addr : Nat
  prefix_len : Nat
  deriving DecidableEq

/-- The top prefix_len bits of a 32-bit address. -/
def Ipv4Net.trunc (p a : Nat) : Nat := (a % 2 ^ 32) / 2 ^ (32 - p)

/-- ipnet's Ipv4Net::contains: the address lies between network() and
broadcast(), i.e. it agrees with the network address on the masked bits. -/
def Ipv4Net.contains (n : Ipv4Net) (a : Nat) : Bool :=
  Ipv4Net.trunc n.prefix_len a == Ipv4Net.trunc n.prefix_len n.addr

/-- Model of ipnet's Ipv6Net: a 128-bit network address plus mask length. -/
structure Ipv6Net where
  addr : Nat
  prefix_len : Nat
  deriving DecidableEq

/-- The top prefix_len bits of a 128-bit address. -/
def Ipv6Net.trunc (p a : Nat) : Nat := (a % 2 ^ 128) / 2 ^ (128 - p)

/-- ipnet's Ipv6Net::contains. -/
def Ipv6Net.contains (n : Ipv6Net) (a : Nat) : Bool :=
  Ipv6Net.trunc n.prefix_len a == Ipv6Net.trunc n.prefix_len n.addr

/-- Model of iprange's IpRange over Ipv4Net: a finite set of networks,
here a list; contains tests membership in any of them. -/
def rangeContainsV4 (r : List Ipv4Net) (a : Nat) : Bool :=
  r.any fun n => Ipv4Net.contains n a

/-- Model of iprange's IpRange over Ipv6Net. -/
def rangeContainsV6 (r : List Ipv6Net) (a : Nat) : Bool :=
  r.any fun n => Ipv6Net.contains n a

/-- Rust struct Ipv4Prefix from src/lib.rs. The serde-skipped field
ipv4_prefix_compute defaults to the empty range, as in the source. The
source field ip_prefix is here called cidr_text. -/
structure Ipv4Entry where
  cidr_text : String
  ipv4_prefix_compute : List Ipv4Net := []
  region : String
  service : String
  network_border_group : String
  deriving DecidableEq

/-- Rust struct Ipv6Prefix from src/lib.rs; source field ipv6_prefix is
here called cidr_text. -/
structure Ipv6Entry where
  cidr_text : String
  ipv6_prefix_compute : List Ipv6Net := []
  region : String
  service : String
  network_border_group : String
  deriving DecidableEq

/-- Rust struct AWSIpRanges: the deserialized upstream dataset. -/
structure AWSIpRanges where
  prefixes : List Ipv4Entry
  ipv6_prefixes : List Ipv6Entry
  deriving DecidableEq

/-- Rust struct AWSResponse: parsed dataset plus upstream freshness tag. -/
structure AWSResponse where
  ranges : AWSIpRanges
  cf_cache_status : String
  deriving DecidableEq

/-- Rust struct APIMatch: the projected output record (source field
ip_prefix is here called cidr_text). -/
structure APIMatch where
  cidr_text : String
  region : String
  service : String
  network_border_group : String
  deriving DecidableEq

/-- Rust struct APIResponse: the 200 JSON body (the source field matches is
here called match_list, as matches is reserved in Lean). -/
structure APIResponse where
  requested_ip : String
  cache_status : String
  match_list : List APIMatch
  deriving DecidableEq

/-- Rust enum std::net::IpAddr, with addresses as Nat. -/
inductive IpAddr
  | v4 (a : Nat)
  | v6 (a : Nat)
  deriving DecidableEq

/-- Projection of an Ipv4Entry into an APIMatch, as in the closure of
ipv4_match in src/lib.rs. -/
def projV4 (x : Ipv4Entry) : APIMatch :=
  { cidr_text := x.cidr_text, region := x.region, service := x.service,
    network_border_group := x.network_border_group }

/-- Projection of an Ipv6Entry into an APIMatch, as in the closure of
ipv6_match in src/lib.rs. -/
def projV6 (x : Ipv6Entry) : APIMatch :=
  { cidr_text := x.cidr_text, region := x.region, service := x.service,
    network_border_group := x.network_border_group }

/-- Rust fn ipv4_match: filter the v4 entries by range containment, project
each survivor. -/
def ipv4_match (aws_ranges : List Ipv4Entry) (ip_address : Nat) : List APIMatch :=
  (aws_ranges.filter fun x => rangeContainsV4 x.ipv4_prefix_compute ip_address).map projV4

/-- Rust fn ipv6_match. -/
def ipv6_match (aws_ranges : List Ipv6Entry) (ip_address : Nat) : List APIMatch :=
  (aws_ranges.filter fun x => rangeContainsV6 x.ipv6_prefix_compute ip_address).map projV6

/-- Rust fn ip_match: dispatch on the address family. -/
def ip_match (aws_ranges : AWSIpRanges) (ip_address : IpAddr) : List APIMatch :=
  match ip_address with
  | .v4 ipv4 => ipv4_match aws_ranges.prefixes ipv4
  | .v6 ipv6 => ipv6_match aws_ranges.ipv6_prefixes ipv6

/-- Outcome of running a piece of Rust code that may panic. -/
inductive RustOutcome (α : Type)
  | panicked
  | value (a : α)
  deriving DecidableEq

/-- The per-entry loop body of calculate_aws_response for the v4 entries:
parse each entry's CIDR text, unwrap (panic on failure), and store the
one-network range into ipv4_prefix_compute. -/
def compute_v4_entries (pv4 : String → Option Ipv4Net) :
    List Ipv4Entry → RustOutcome (List Ipv4Entry)
  | [] => .value []
  | r :: rest =>
    match pv4 r.cidr_text with
    | none => .panicked
    | some n =>
      match compute_v4_entries pv4 rest with
      | .panicked => .panicked
      | .value rest2 => .value ({ r with ipv4_prefix_compute := [n] } :: rest2)

/-- The per-entry loop body of calculate_aws_response for the v6 entries. -/
def compute_v6_entries (pv6 : String → Option Ipv6Net) :
    List Ipv6Entry → RustOutcome (List Ipv6Entry)
  | [] => .value []
  | r :: rest =>
    match pv6 r.cidr_text with
    | none => .panicked
    | some n =>
      match compute_v6_entries pv6 rest with
      | .panicked => .panicked
      | .value rest2 => .value ({ r with ipv6_prefix_compute := [n] } :: rest2)

/-- Rust fn calculate_aws_response: compute every entry's one-network range
index (unwrap panics on any malformed CIDR text), then package the dataset
with the freshness tag. The external CIDR parsers are the pv4 / pv6
parameters. -/
def calculate_aws_response (pv4 : String → Option Ipv4Net)
    (pv6 : String → Option Ipv6Net) (ranges : AWSIpRanges)
    (cf_cache_status : String) : RustOutcome AWSResponse :=
  match compute_v4_entries pv4 ranges.prefixes with
  | .panicked => .panicked
  | .value ps =>
    match compute_v6_entries pv6 ranges.ipv6_prefixes with
    | .panicked => .panicked
    | .value qs =>
      .value { ranges := { prefixes := ps, ipv6_prefixes := qs },
               cf_cache_status := cf_cache_status }

/-- Outcome of the external fetch pipeline inside fetch_aws_ranges (HTTP
fetch, JSON body decode, cf-cache-status header read): either some worker
error, or the decoded dataset together with the optional header value. -/
inductive FetchOutcome (ε : Type)
  | err (e : ε)
  | ok (ranges : AWSIpRanges) (cf_header : Option String)

/-- Rust fn fetch_aws_ranges, with the global RwLock slot passed in and the
updated slot returned. Result value: (Ok (response, is_local) | Err e,
new slot), or a panic escaping from calculate_aws_response. -/
def fetch_aws_ranges {ε : Type} (pv4 : String → Option Ipv4Net)
    (pv6 : String → Option Ipv6Net) (slot : Option AWSResponse)
    (loader : FetchOutcome ε) :
    RustOutcome (Except ε (AWSResponse × Bool) × Option AWSResponse) :=
  let aws_response_storage := slot
  let is_local := aws_response_storage.isSome
  match aws_response_storage with
  | some stored => .value (.ok (stored, is_local), slot)
  | none =>
    match loader with
    | .err e => .value (.error e, slot)
    | .ok ranges cf_header =>
      let cf_cache_status := cf_header.getD "UNKNOWN"
      match calculate_aws_response pv4 pv6 ranges cf_cache_status with
      | .panicked => .panicked
      | .value aws => .value (.ok (aws, is_local), some aws)

/-- A worker Response at the root route: either Response::error with a
message and status code, or the JSON API response. -/
inductive WorkerResponse
  | error_resp (message : String) (status : Nat)
  | json_api (body : APIResponse)
  deriving DecidableEq

/-- The root route handler from main in src/lib.rs: extract the first "ip"
query pair, validate it, fetch (or reuse) the dataset, compute the
cache_status string and the matches. The external address parser std
IpAddr::from_str is the parse_ip parameter; query_pairs is the decoded
query pair list. Returns the response and the updated cache slot. -/
def route_root {ε : Type} (parse_ip : String → Option IpAddr)
    (pv4 : String → Option Ipv4Net) (pv6 : String → Option Ipv6Net)
    (query_pairs : List (String × String)) (slot : Option AWSResponse)
    (loader : FetchOutcome ε) :
    RustOutcome (WorkerResponse × Option AWSResponse) :=
  match (query_pairs.find? fun i => i.1 == "ip").map (fun i => i.2) with
  | none => .value (.error_resp "\"ip\" parameter is missing!" 400, slot)
  | some ip_param =>
    if ip_param.isEmpty then
      .value (.error_resp "\"ip\" parameter is empty!" 400, slot)
    else
      match parse_ip ip_param with
      | none =>
        .value (.error_resp "\"ip\" parameter is not a valid IP address!" 400, slot)
      | some ip_address =>
        match fetch_aws_ranges pv4 pv6 slot loader with
        | .panicked => .panicked
        | .value (.error _, slot2) =>
          .value (.error_resp "Unable to fetch AWS ranges" 500, slot2)
        | .value (.ok (aws_response, is_local), slot2) =>
          let cache_status :=
            if is_local then "LOCAL" else aws_response.cf_cache_status
          let found := ip_match aws_response.ranges ip_address
          .value (.json_api { requested_ip := ip_param,
                              cache_status := cache_status,
                              match_list := found }, slot2)

/-- Modelled from the spec: the Matcher contract for IPv4, written from the
spec's words for comparison with the source's ipv4_match — iterate entries
in dataset order, include an entry's projection in the output iff its range
index contains the address. -/
def spec_match_v4 (entries : List Ipv4Entry) (a : Nat) : List APIMatch :=
  match entries with
  | [] => []
  | e :: rest =>
    if rangeContainsV4 e.ipv4_prefix_compute a then
      projV4 e :: spec_match_v4 rest a
    else
      spec_match_v4 rest a

/-- Modelled from the spec: the Matcher contract for IPv6. -/
def spec_match_v6 (entries : List Ipv6Entry) (a : Nat) : List APIMatch :=
  match entries with
  | [] => []
  | e :: rest =>
    if rangeContainsV6 e.ipv6_prefix_compute a then
      projV6 e :: spec_match_v6 rest a
    else
      spec_match_v6 rest a

lemma ipv4_match_eq_spec (entries : List Ipv4Entry) (a : Nat) :
    ipv4_match entries a = spec_match_v4 entries a := by
  induction entries with
  | nil => rfl
  | cons e rest ih =>
    by_cases h : rangeContainsV4 e.ipv4_prefix_compute a
    · simp [ipv4_match, spec_match_v4, List.filter_cons, h] at ih ⊢
      exact ih
    · simp [ipv4_match, spec_match_v4, List.filter_cons, h] at ih ⊢
      exact ih

lemma ipv6_match_eq_spec (entries : List Ipv6Entry) (a : Nat) :
    ipv6_match entries a = spec_match_v6 entries a := by
  induction entries with
  | nil => rfl
  | cons e rest ih =>
    by_cases h : rangeContainsV6 e.ipv6_prefix_compute a
    · simp [ipv6_match, spec_match_v6, List.filter_cons, h] at ih ⊢
      exact ih
    · simp [ipv6_match, spec_match_v6, List.filter_cons, h] at ih ⊢
      exact ih

lemma mem_ipv4_match (entries : List Ipv4Entry) (a : Nat) (m : APIMatch) :
    m ∈ ipv4_match entries a ↔
      ∃ e, e ∈ entries ∧ rangeContainsV4 e.ipv4_prefix_compute a = true ∧
        m = projV4 e := by
  simp only [ipv4_match, List.mem_map, List.mem_filter]
  constructor
  · rintro ⟨e, ⟨he, hc⟩, hm⟩
    exact ⟨e, he, hc, hm.symm⟩
  · rintro ⟨e, he, hc, hm⟩
    exact ⟨e, ⟨he, hc⟩, hm.symm⟩

lemma mem_ipv6_match (entries : List Ipv6Entry) (a : Nat) (m : APIMatch) :
    m ∈ ipv6_match entries a ↔
      ∃ e, e ∈ entries ∧ rangeContainsV6 e.ipv6_prefix_compute a = true ∧
        m = projV6 e := by
  simp only [ipv6_match, List.mem_map, List.mem_filter]
  constructor
  · rintro ⟨e, ⟨he, hc⟩, hm⟩
    exact ⟨e, he, hc, hm.symm⟩
  · rintro ⟨e, he, hc, hm⟩
    exact ⟨e, ⟨he, hc⟩, hm.symm⟩

/-- Claim C1: for every dataset and address, the matcher output is exactly
the in-order enumeration of the projections of the entries of the matching
family whose range contains the address (the spec-side enumeration
spec_match_v4 / spec_match_v6), and a projection is in the output iff some
entry's range contains the address and projects to it. -/
theorem C1_match_output_exact (d : AWSIpRanges) (a4 a6 : Nat) :
    ip_match d (.v4 a4) = spec_match_v4 d.prefixes a4 ∧
    ip_match d (.v6 a6) = spec_match_v6 d.ipv6_prefixes a6 ∧
    (∀ m : APIMatch, m ∈ ip_match d (.v4 a4) ↔
      ∃ e, e ∈ d.prefixes ∧ rangeContainsV4 e.ipv4_prefix_compute a4 = true ∧
        m = projV4 e) ∧
    (∀ m : APIMatch, m ∈ ip_match d (.v6 a6) ↔
      ∃ e, e ∈ d.ipv6_prefixes ∧
        rangeContainsV6 e.ipv6_prefix_compute a6 = true ∧ m = projV6 e) := by
  refine ⟨ipv4_match_eq_spec _ _, ipv6_match_eq_spec _ _, ?_, ?_⟩
  · exact fun m => mem_ipv4_match d.prefixes a4 m
  · exact fun m => mem_ipv6_match d.ipv6_prefixes a6 m

/-- The IPv4-mapped IPv6 address ::ffff:a.b.c.d for a 32-bit value. -/
def ipv4_mapped (a : Nat) : Nat := 0xffff * 2 ^ 32 + a % 2 ^ 32

/-- Claim C3: matching dispatches purely on address family — the result for
an IPv4 address does not depend on the v6 entries, the result for an IPv6
address does not depend on the v4 entries, and an IPv4-mapped IPv6 address
is handled as IPv6, tested only against the v6 entries. -/
theorem C3_family_dispatch (p p2 : List Ipv4Entry) (q q2 : List Ipv6Entry)
    (a b : Nat) :
    ip_match { prefixes := p, ipv6_prefixes := q } (.v4 a) =
      ip_match { prefixes := p, ipv6_prefixes := q2 } (.v4 a) ∧
    ip_match { prefixes := p, ipv6_prefixes := q } (.v6 b) =
      ip_match { prefixes := p2, ipv6_prefixes := q } (.v6 b) ∧
    ip_match { prefixes := p, ipv6_prefixes := q } (.v6 (ipv4_mapped a)) =
      ipv6_match q (ipv4_mapped a) := by
  exact ⟨rfl, rfl, rfl⟩

lemma ipv4_match_eq_nil (entries : List Ipv4Entry) (a : Nat) :
    (∀ e ∈ entries, rangeContainsV4 e.ipv4_prefix_compute a = false) →
    ipv4_match entries a = [] := by
  induction entries with
  | nil => intro _; rfl
  | cons e rest ih =>
    intro h
    have hrest := ih fun x hx => h x (by simp [hx])
    simp only [ipv4_match, List.filter_cons, h e (by simp)] at hrest ⊢
    simpa using hrest

lemma ipv6_match_eq_nil (entries : List Ipv6Entry) (a : Nat) :
    (∀ e ∈ entries, rangeContainsV6 e.ipv6_prefix_compute a = false) →
    ipv6_match entries a = [] := by
  induction entries with
  | nil => intro _; rfl
  | cons e rest ih =>
    intro h
    have hrest := ih fun x hx => h x (by simp [hx])
    simp only [ipv6_match, List.filter_cons, h e (by simp)] at hrest ⊢
    simpa using hrest

/-- Claim C8: an address contained in no published range of its family
yields the empty match list — matching still succeeds, it is total and
returns a list, never an error. -/
theorem C8_no_range_empty_matches (d : AWSIpRanges) (a4 a6 : Nat) :
    ((∀ e ∈ d.prefixes, rangeContainsV4 e.ipv4_prefix_compute a4 = false) →
      ip_match d (.v4 a4) = []) ∧
    ((∀ e ∈ d.ipv6_prefixes, rangeContainsV6 e.ipv6_prefix_compute a6 = false) →
      ip_match d (.v6 a6) = []) := by
  exact ⟨fun h => ipv4_match_eq_nil d.prefixes a4 h,
         fun h => ipv6_match_eq_nil d.ipv6_prefixes a6 h⟩

lemma rangeContainsV4_singleton (n : Ipv4Net) (a : Nat) :
    rangeContainsV4 [n] a = Ipv4Net.contains n a := by
  simp [rangeContainsV4]

lemma rangeContainsV6_singleton (n : Ipv6Net) (a : Nat) :
    rangeContainsV6 [n] a = Ipv6Net.contains n a := by
  simp [rangeContainsV6]

lemma compute_v4_entries_panicked (pv4 : String → Option Ipv4Net)
    (es : List Ipv4Entry) (h : ∃ e ∈ es, pv4 e.cidr_text = none) :
    compute_v4_entries pv4 es = .panicked := by
  induction es with
  | nil => obtain ⟨e, he, _⟩ := h; cases he
  | cons r rest ih =>
    obtain ⟨e, he, hn⟩ := h
    simp only [List.mem_cons] at he
    cases he with
    | inl hh => subst hh; simp [compute_v4_entries, hn]
    | inr hh =>
      simp only [compute_v4_entries]
      cases hr : pv4 r.cidr_text with
      | none => rfl
      | some n => simp [ih ⟨e, hh, hn⟩]

lemma compute_v6_entries_panicked (pv6 : String → Option Ipv6Net)
    (es : List Ipv6Entry) (h : ∃ e ∈ es, pv6 e.cidr_text = none) :
    compute_v6_entries pv6 es = .panicked := by
  induction es with
  | nil => obtain ⟨e, he, _⟩ := h; cases he
  | cons r rest ih =>
    obtain ⟨e, he, hn⟩ := h
    simp only [List.mem_cons] at he
    cases he with
    | inl hh => subst hh; simp [compute_v6_entries, hn]
    | inr hh =>
      simp only [compute_v6_entries]
      cases hr : pv6 r.cidr_text with
      | none => rfl
      | some n => simp [ih ⟨e, hh, hn⟩]

lemma compute_v4_entries_value (pv4 : String → Option Ipv4Net)
    (es : List Ipv4Entry) :
    ∀ ps, compute_v4_entries pv4 es = .value ps →
      (∀ e ∈ es, (pv4 e.cidr_text).isSome = true) ∧
      ps = es.map fun e =>
        { e with ipv4_prefix_compute := (pv4 e.cidr_text).toList } := by
  induction es with
  | nil =>
    intro ps h
    simp only [compute_v4_entries, RustOutcome.value.injEq] at h
    subst h
    simp
  | cons r rest ih =>
    intro ps h
    simp only [compute_v4_entries] at h
    cases hr : pv4 r.cidr_text with
    | none => rw [hr] at h; cases h
    | some n =>
      rw [hr] at h
      cases hc : compute_v4_entries pv4 rest with
      | panicked => rw [hc] at h; cases h
      | value rest2 =>
        rw [hc] at h
        simp only [RustOutcome.value.injEq] at h
        subst h
        obtain ⟨hall, hmap⟩ := ih rest2 hc
        constructor
        · intro e he
          simp only [List.mem_cons] at he
          cases he with
          | inl hh => subst hh; simp [hr]
          | inr hh => exact hall e hh
        · simp [List.map_cons, hmap, hr]

lemma compute_v6_entries_value (pv6 : String → Option Ipv6Net)
    (es : List Ipv6Entry) :
    ∀ ps, compute_v6_entries pv6 es = .value ps →
      (∀ e ∈ es, (pv6 e.cidr_text).isSome = true) ∧
      ps = es.map fun e =>
        { e with ipv6_prefix_compute := (pv6 e.cidr_text).toList } := by
  induction es with
  | nil =>
    intro ps h
    simp only [compute_v6_entries, RustOutcome.value.injEq] at h
    subst h
    simp
  | cons r rest ih =>
    intro ps h
    simp only [compute_v6_entries] at h
    cases hr : pv6 r.cidr_text with
    | none => rw [hr] at h; cases h
    | some n =>
      rw [hr] at h
      cases hc : compute_v6_entries pv6 rest with
      | panicked => rw [hc] at h; cases h
      | value rest2 =>
        rw [hc] at h
        simp only [RustOutcome.value.injEq] at h
        subst h
        obtain ⟨hall, hmap⟩ := ih rest2 hc
        constructor
        · intro e he
          simp only [List.mem_cons] at he
          cases he with
          | inl hh => subst hh; simp [hr]
          | inr hh => exact hall e hh
        · simp [List.map_cons, hmap, hr]

/-- A v4 entry whose CIDR text is not interpretable as a network. -/
def bad_v4_entry : Ipv4Entry :=
  { cidr_text := "not-a-cidr", region := "us-east-1", service := "AMAZON",
    network_border_group := "us-east-1" }

/-- A raw dataset holding one malformed v4 CIDR text. -/
def bad_ranges : AWSIpRanges :=
  { prefixes := [bad_v4_entry], ipv6_prefixes := [] }

/-- A v6 entry whose CIDR text is not interpretable as a network. -/
def bad_v6_entry : Ipv6Entry :=
  { cidr_text := "also-not-a-cidr", region := "eu-west-1", service := "AMAZON",
    network_border_group := "eu-west-1" }

/-- A raw dataset holding one malformed v6 CIDR text. -/
def bad_ranges_v6 : AWSIpRanges :=
  { prefixes := [], ipv6_prefixes := [bad_v6_entry] }

/-- The external CIDR parsers at a point where the text is malformed. -/
def no_parse_v4 : String → Option Ipv4Net := fun _ => none

/-- The external v6 CIDR parser at a point where the text is malformed. -/
def no_parse_v6 : String → Option Ipv6Net := fun _ => none

/-- Claim C2, counterexample: on a concrete raw dataset whose one CIDR text
fails to parse, calculate_aws_response panics (the unwrap in src/lib.rs)
instead of returning a ParseError to the caller — refuting the claim that
dataset construction never panics on malformed CIDR input. -/
theorem C2_counterexample :
    no_parse_v4 bad_v4_entry.cidr_text = none ∧
    calculate_aws_response no_parse_v4 no_parse_v6 bad_ranges "TEST" =
      .panicked := by
  exact ⟨rfl, rfl⟩

/-- Claim C2, amended: for every raw dataset containing a CIDR text value
that the declared family's parser cannot interpret, dataset construction
panics — the whole population attempt aborts with no partial Dataset value
produced — rather than returning a ParseError to the caller. -/
theorem C2_malformed_cidr_panics (pv4 : String → Option Ipv4Net)
    (pv6 : String → Option Ipv6Net) (ranges : AWSIpRanges) (st : String)
    (h : (∃ e ∈ ranges.prefixes, pv4 e.cidr_text = none) ∨
         (∃ e ∈ ranges.ipv6_prefixes, pv6 e.cidr_text = none)) :
    calculate_aws_response pv4 pv6 ranges st = .panicked := by
  cases h with
  | inl h4 =>
    simp [calculate_aws_response,
      compute_v4_entries_panicked pv4 ranges.prefixes h4]
  | inr h6 =>
    have h6c := compute_v6_entries_panicked pv6 ranges.ipv6_prefixes h6
    simp only [calculate_aws_response, h6c]
    cases hc : compute_v4_entries pv4 ranges.prefixes <;> simp

/-- Claim C2 amended, witness at a concrete malformed v6 dataset. -/
theorem C2_malformed_cidr_panics_witness :
    ((∃ e ∈ bad_ranges_v6.prefixes, no_parse_v4 e.cidr_text = none) ∨
     (∃ e ∈ bad_ranges_v6.ipv6_prefixes, no_parse_v6 e.cidr_text = none)) ∧
    calculate_aws_response no_parse_v4 no_parse_v6 bad_ranges_v6 "TEST" =
      .panicked := by
  have h : (∃ e ∈ bad_ranges_v6.prefixes, no_parse_v4 e.cidr_text = none) ∨
      (∃ e ∈ bad_ranges_v6.ipv6_prefixes, no_parse_v6 e.cidr_text = none) :=
    Or.inr ⟨bad_v6_entry, by simp [bad_ranges_v6], rfl⟩
  exact ⟨h, C2_malformed_cidr_panics no_parse_v4 no_parse_v6 bad_ranges_v6 "TEST" h⟩

/-- Claim C9: every successfully constructed Dataset keeps the raw entries
in order with their metadata, and each entry's range index is exactly the
one-network range of the parse of that entry's own CIDR text: structurally
the singleton list of that network, never a union and never merged or
deduplicated, and extensionally it contains an address iff that single
network contains it. (The constructed Dataset is a pure value here, so it
is unchanged for its whole lifetime by construction.) -/
theorem C9_range_index_single_block (pv4 : String → Option Ipv4Net)
    (pv6 : String → Option Ipv6Net) (ranges : AWSIpRanges) (st : String)
    (resp : AWSResponse)
    (h : calculate_aws_response pv4 pv6 ranges st = .value resp) :
    resp.ranges.prefixes = ranges.prefixes.map
      (fun e => { e with ipv4_prefix_compute := (pv4 e.cidr_text).toList }) ∧
    resp.ranges.ipv6_prefixes = ranges.ipv6_prefixes.map
      (fun e => { e with ipv6_prefix_compute := (pv6 e.cidr_text).toList }) ∧
    (∀ e ∈ resp.ranges.prefixes, ∃ n, pv4 e.cidr_text = some n ∧
      e.ipv4_prefix_compute = [n] ∧
      ∀ a, rangeContainsV4 e.ipv4_prefix_compute a = Ipv4Net.contains n a) ∧
    (∀ e ∈ resp.ranges.ipv6_prefixes, ∃ n, pv6 e.cidr_text = some n ∧
      e.ipv6_prefix_compute = [n] ∧
      ∀ a, rangeContainsV6 e.ipv6_prefix_compute a = Ipv6Net.contains n a) ∧
    resp.cf_cache_status = st := by
  simp only [calculate_aws_response] at h
  cases h4 : compute_v4_entries pv4 ranges.prefixes with
  | panicked => rw [h4] at h; cases h
  | value ps =>
    rw [h4] at h
    cases h6 : compute_v6_entries pv6 ranges.ipv6_prefixes with
    | panicked => rw [h6] at h; cases h
    | value qs =>
      rw [h6] at h
      simp only [RustOutcome.value.injEq] at h
      subst h
      obtain ⟨hall4, hmap4⟩ := compute_v4_entries_value pv4 ranges.prefixes ps h4
      obtain ⟨hall6, hmap6⟩ := compute_v6_entries_value pv6 ranges.ipv6_prefixes qs h6
      refine ⟨hmap4, hmap6, ?_, ?_, rfl⟩
      · intro e he
        rw [hmap4] at he
        simp only [List.mem_map] at he
        obtain ⟨e0, he0, rfl⟩ := he
        obtain ⟨n, hn⟩ := Option.isSome_iff_exists.mp (hall4 e0 he0)
        exact ⟨n, by simpa using hn, by simp [hn],
          fun a => by simp [hn, rangeContainsV4_singleton]⟩
      · intro e he
        rw [hmap6] at he
        simp only [List.mem_map] at he
        obtain ⟨e0, he0, rfl⟩ := he
        obtain ⟨n, hn⟩ := Option.isSome_iff_exists.mp (hall6 e0 he0)
        exact ⟨n, by simpa using hn, by simp [hn],
          fun a => by simp [hn, rangeContainsV6_singleton]⟩

/-- A well-formed v4 entry used to exercise the success path. -/
def good_v4_entry : Ipv4Entry :=
  { cidr_text := "10.0.0.0/8", region := "eu-west-1", service := "AMAZON",
    network_border_group := "eu-west-1" }

/-- A raw dataset holding one well-formed v4 CIDR text. -/
def good_ranges : AWSIpRanges :=
  { prefixes := [good_v4_entry], ipv6_prefixes := [] }

/-- The external v4 CIDR parser at the points the demonstrations use. -/
def demo_parse_v4 : String → Option Ipv4Net :=
  fun s => if s == "10.0.0.0/8" then
    some { addr := 167772160, prefix_len := 8 } else none

/-- The Dataset that calculate_aws_response builds from good_ranges. -/
def demo_resp : AWSResponse :=
  { ranges :=
      { prefixes :=
          [{ good_v4_entry with
              ipv4_prefix_compute := [{ addr := 167772160, prefix_len := 8 }] }],
        ipv6_prefixes := [] },
    cf_cache_status := "MISS" }

/-- Claim C9, witness: the success-path theorem applied at a concrete
one-entry dataset. -/
theorem C9_range_index_single_block_witness :
    calculate_aws_response demo_parse_v4 no_parse_v6 good_ranges "MISS" =
      .value demo_resp ∧
    demo_resp.ranges.prefixes = good_ranges.prefixes.map
      (fun e =>
        { e with ipv4_prefix_compute := (demo_parse_v4 e.cidr_text).toList }) ∧
    demo_resp.cf_cache_status = "MISS" := by
  have h : calculate_aws_response demo_parse_v4 no_parse_v6 good_ranges "MISS" =
      .value demo_resp := by decide
  have hc := C9_range_index_single_block demo_parse_v4 no_parse_v6 good_ranges
    "MISS" demo_resp h
  exact ⟨h, hc.1, hc.2.2.2.2⟩

/-- Claim C4: get-or-populate semantics of the cache. With the slot already
holding a Dataset, fetch_aws_ranges returns that very Dataset tagged Hit
(is_local = true) with the slot unchanged, and its result does not depend
on the loader at all (the loader is not invoked); with the slot empty and
the loader succeeding, it returns the Dataset built from the loader's data
tagged Miss (is_local = false) and stores that same Dataset in the slot. -/
theorem C4_cache_hit_miss {ε : Type} (pv4 : String → Option Ipv4Net)
    (pv6 : String → Option Ipv6Net) (ds : AWSResponse)
    (loader loader2 : FetchOutcome ε) (ranges : AWSIpRanges)
    (hdr : Option String) :
    fetch_aws_ranges pv4 pv6 (some ds) loader = .value (.ok (ds, true), some ds) ∧
    fetch_aws_ranges pv4 pv6 (some ds) loader =
      fetch_aws_ranges pv4 pv6 (some ds) loader2 ∧
    (∀ resp : AWSResponse,
      calculate_aws_response pv4 pv6 ranges (hdr.getD "UNKNOWN") = .value resp →
      fetch_aws_ranges pv4 pv6 none (FetchOutcome.ok ranges hdr : FetchOutcome ε) =
        .value (.ok (resp, false), some resp)) := by
  refine ⟨rfl, rfl, fun resp hcalc => ?_⟩
  simp [fetch_aws_ranges, hcalc]

/-- Claim C4, witness: a hit on a concrete populated slot and a miss on the
empty slot with a concrete loader result. -/
theorem C4_cache_hit_miss_witness :
    fetch_aws_ranges demo_parse_v4 no_parse_v6 (some demo_resp)
        (FetchOutcome.err 7) =
      .value (.ok (demo_resp, true), some demo_resp) ∧
    fetch_aws_ranges demo_parse_v4 no_parse_v6 none
        (FetchOutcome.ok good_ranges (some "MISS") : FetchOutcome Nat) =
      .value (.ok (demo_resp, false), some demo_resp) := by
  have hc := C4_cache_hit_miss demo_parse_v4 no_parse_v6 demo_resp
    (FetchOutcome.err 7) (FetchOutcome.err 7) good_ranges (some "MISS")
  exact ⟨hc.1, hc.2.2 demo_resp (by decide)⟩

/-- Claim C5: if the loader fails while the slot is empty, fetch_aws_ranges
propagates that very error to the caller and the slot stays empty — the
cache is not mutated by a failed population. -/
theorem C5_loader_failure_propagates {ε : Type} (pv4 : String → Option Ipv4Net)
    (pv6 : String → Option Ipv6Net) (e : ε) :
    fetch_aws_ranges pv4 pv6 none (.err e) = .value (.error e, none) := by
  rfl

lemma calculate_aws_response_status (pv4 : String → Option Ipv4Net)
    (pv6 : String → Option Ipv6Net) (ranges : AWSIpRanges) (st : String)
    (resp : AWSResponse)
    (h : calculate_aws_response pv4 pv6 ranges st = .value resp) :
    resp.cf_cache_status = st := by
  simp only [calculate_aws_response] at h
  cases h4 : compute_v4_entries pv4 ranges.prefixes with
  | panicked => rw [h4] at h; cases h
  | value ps =>
    rw [h4] at h
    cases h6 : compute_v6_entries pv6 ranges.ipv6_prefixes with
    | panicked => rw [h6] at h; cases h
    | value qs =>
      rw [h6] at h
      simp only [RustOutcome.value.injEq] at h
      rw [← h]

lemma route_root_json {ε : Type} (parse_ip : String → Option IpAddr)
    (pv4 : String → Option Ipv4Net) (pv6 : String → Option Ipv6Net)
    (pairs : List (String × String)) (slot : Option AWSResponse)
    (loader : FetchOutcome ε) (r : APIResponse) (slot2 : Option AWSResponse)
    (h : route_root parse_ip pv4 pv6 pairs slot loader =
      .value (.json_api r, slot2)) :
    ∃ v ip0 aws is_local,
      (pairs.find? fun i => i.1 == "ip").map (fun i => i.2) = some v ∧
      v.isEmpty = false ∧
      parse_ip v = some ip0 ∧
      fetch_aws_ranges pv4 pv6 slot loader =
        .value (.ok (aws, is_local), slot2) ∧
      r = { requested_ip := v,
            cache_status := if is_local then "LOCAL" else aws.cf_cache_status,
            match_list := ip_match aws.ranges ip0 } := by
  simp only [route_root] at h
  cases hf : (pairs.find? fun i => i.1 == "ip").map (fun i => i.2) with
  | none => rw [hf] at h; cases h
  | some v =>
    rw [hf] at h
    cases he : v.isEmpty with
    | true => simp only [he, if_true] at h; cases h
    | false =>
      simp only [he, Bool.false_eq_true, if_false] at h
      cases hp : parse_ip v with
      | none => rw [hp] at h; cases h
      | some ip0 =>
        rw [hp] at h
        cases hfetch : fetch_aws_ranges pv4 pv6 slot loader with
        | panicked => rw [hfetch] at h; cases h
        | value pr =>
          rw [hfetch] at h
          obtain ⟨res, slot3⟩ := pr
          cases res with
          | error e => simp at h
          | ok p =>
            obtain ⟨aws, is_local⟩ := p
            simp only [RustOutcome.value.injEq, Prod.mk.injEq,
              WorkerResponse.json_api.injEq] at h
            obtain ⟨hr, hs⟩ := h
            subst hs
            exact ⟨v, ip0, aws, is_local, rfl, he, hp, rfl, hr.symm⟩

/-- Claim C6: in every successful JSON response, cache_status is "LOCAL"
when served from an already-populated slot (a Hit); on a populating call it
is the upstream cf-cache-status header value, "UNKNOWN" when the upstream
response carried no such header. -/
theorem C6_cache_status_tag {ε : Type} (parse_ip : String → Option IpAddr)
    (pv4 : String → Option Ipv4Net) (pv6 : String → Option Ipv6Net)
    (pairs : List (String × String)) (ds : AWSResponse)
    (loader : FetchOutcome ε) (ranges : AWSIpRanges) (hdr : Option String) :
    (∀ (r : APIResponse) (slot2 : Option AWSResponse),
      route_root parse_ip pv4 pv6 pairs (some ds) loader =
        .value (.json_api r, slot2) → r.cache_status = "LOCAL") ∧
    (∀ (r : APIResponse) (slot2 : Option AWSResponse),
      route_root parse_ip pv4 pv6 pairs none
          (FetchOutcome.ok ranges hdr : FetchOutcome ε) =
        .value (.json_api r, slot2) →
      r.cache_status = hdr.getD "UNKNOWN") := by
  constructor
  · intro r slot2 h
    obtain ⟨v, ip0, aws, is_local, hf, he, hp, hfetch, hr⟩ :=
      route_root_json parse_ip pv4 pv6 pairs (some ds) loader r slot2 h
    have hd : fetch_aws_ranges pv4 pv6 (some ds) loader =
        .value (.ok (ds, true), some ds) := rfl
    rw [hd] at hfetch
    simp only [RustOutcome.value.injEq, Prod.mk.injEq, Except.ok.injEq] at hfetch
    obtain ⟨⟨ha, hl⟩, _⟩ := hfetch
    rw [hr, ← hl]
    simp
  · intro r slot2 h
    obtain ⟨v, ip0, aws, is_local, hf, he, hp, hfetch, hr⟩ :=
      route_root_json parse_ip pv4 pv6 pairs none
        (FetchOutcome.ok ranges hdr : FetchOutcome ε) r slot2 h
    have hd : fetch_aws_ranges pv4 pv6 none
        (FetchOutcome.ok ranges hdr : FetchOutcome ε) =
        (match calculate_aws_response pv4 pv6 ranges (hdr.getD "UNKNOWN") with
          | .panicked => .panicked
          | .value aws2 => .value (.ok (aws2, false), some aws2)) := rfl
    rw [hd] at hfetch
    cases hcalc : calculate_aws_response pv4 pv6 ranges (hdr.getD "UNKNOWN") with
    | panicked => rw [hcalc] at hfetch; cases hfetch
    | value resp =>
      rw [hcalc] at hfetch
      simp only [RustOutcome.value.injEq, Prod.mk.injEq, Except.ok.injEq] at hfetch
      obtain ⟨⟨ha, hl⟩, _⟩ := hfetch
      rw [hr, ← hl, ← ha]
      simpa using calculate_aws_response_status pv4 pv6 ranges
        (hdr.getD "UNKNOWN") resp hcalc

/-- Claim C7: a request whose ip query parameter is absent, empty, or fails
address parsing yields the corresponding 400 error response with its
human-readable message, and the cache slot is returned unchanged — the
result is the same for every loader, so no fetch or population happens. -/
theorem C7_param_errors_400 {ε : Type} (parse_ip : String → Option IpAddr)
    (pv4 : String → Option Ipv4Net) (pv6 : String → Option Ipv6Net)
    (pairs : List (String × String)) (slot : Option AWSResponse)
    (loader : FetchOutcome ε) :
    ((pairs.find? fun i => i.1 == "ip") = none →
      route_root parse_ip pv4 pv6 pairs slot loader =
        .value (.error_resp "\"ip\" parameter is missing!" 400, slot)) ∧
    (∀ k v, (pairs.find? fun i => i.1 == "ip") = some (k, v) →
      v.isEmpty = true →
      route_root parse_ip pv4 pv6 pairs slot loader =
        .value (.error_resp "\"ip\" parameter is empty!" 400, slot)) ∧
    (∀ k v, (pairs.find? fun i => i.1 == "ip") = some (k, v) →
      v.isEmpty = false → parse_ip v = none →
      route_root parse_ip pv4 pv6 pairs slot loader =
        .value (.error_resp "\"ip\" parameter is not a valid IP address!" 400,
          slot)) := by
  refine ⟨?_, ?_, ?_⟩
  · intro hf
    simp [route_root, hf]
  · intro k v hf he
    simp [route_root, hf, he]
  · intro k v hf he hp
    simp [route_root, hf, he, hp]

/-- Claim C10: the handler reads the ip query parameter only through the
first occurrence in query-string order — two requests whose first ip values
agree get identical responses and cache effects, whatever later duplicate
occurrences hold — and in a successful JSON response requested_ip echoes
exactly that first occurrence's value. -/
theorem C10_first_ip_occurrence {ε : Type} (parse_ip : String → Option IpAddr)
    (pv4 : String → Option Ipv4Net) (pv6 : String → Option Ipv6Net)
    (pairs pairs2 : List (String × String)) (slot : Option AWSResponse)
    (loader : FetchOutcome ε) :
    ((pairs.find? fun i => i.1 == "ip").map (fun i => i.2) =
        (pairs2.find? fun i => i.1 == "ip").map (fun i => i.2) →
      route_root parse_ip pv4 pv6 pairs slot loader =
        route_root parse_ip pv4 pv6 pairs2 slot loader) ∧
    (∀ (r : APIResponse) (slot2 : Option AWSResponse),
      route_root parse_ip pv4 pv6 pairs slot loader =
        .value (.json_api r, slot2) →
      (pairs.find? fun i => i.1 == "ip").map (fun i => i.2) =
        some r.requested_ip) := by
  constructor
  · intro h
    simp only [route_root]
    rw [h]
  · intro r slot2 h
    obtain ⟨v, ip0, aws, is_local, hf, he, hp, hfetch, hr⟩ :=
      route_root_json parse_ip pv4 pv6 pairs slot loader r slot2 h
    rw [hf, hr]

/-- The external address parser std IpAddr FromStr at the points the
demonstrations use: 1.2.3.4 is the IPv4 address with value 16909060. -/
def demo_parse_ip : String → Option IpAddr :=
  fun s => if s == "1.2.3.4" then some (.v4 16909060) else none

/-- The Dataset built from good_ranges when the upstream carries no
cf-cache-status header. -/
def demo_resp_u : AWSResponse :=
  { ranges := demo_resp.ranges, cf_cache_status := "UNKNOWN" }

/-- Claim C6, witness: a concrete hit serves with cache_status LOCAL; a
concrete populating call with no upstream header serves UNKNOWN. -/
theorem C6_cache_status_tag_witness :
    route_root demo_parse_ip demo_parse_v4 no_parse_v6 [("ip", "1.2.3.4")]
        (some demo_resp) (FetchOutcome.err 9 : FetchOutcome Nat) =
      .value (.json_api
        { requested_ip := "1.2.3.4", cache_status := "LOCAL",
          match_list := [] }, some demo_resp) ∧
    APIResponse.cache_status
      { requested_ip := "1.2.3.4", cache_status := "LOCAL",
        match_list := [] } = "LOCAL" ∧
    route_root demo_parse_ip demo_parse_v4 no_parse_v6 [("ip", "1.2.3.4")]
        none (FetchOutcome.ok good_ranges none : FetchOutcome Nat) =
      .value (.json_api
        { requested_ip := "1.2.3.4", cache_status := "UNKNOWN",
          match_list := [] }, some demo_resp_u) ∧
    APIResponse.cache_status
      { requested_ip := "1.2.3.4", cache_status := "UNKNOWN",
        match_list := [] } = "UNKNOWN" := by
  have hc := C6_cache_status_tag demo_parse_ip demo_parse_v4 no_parse_v6
    [("ip", "1.2.3.4")] demo_resp (FetchOutcome.err 9 : FetchOutcome Nat)
    good_ranges none
  have h1 : route_root demo_parse_ip demo_parse_v4 no_parse_v6
      [("ip", "1.2.3.4")] (some demo_resp)
      (FetchOutcome.err 9 : FetchOutcome Nat) =
      .value (.json_api
        { requested_ip := "1.2.3.4", cache_status := "LOCAL",
          match_list := [] }, some demo_resp) := by decide
  have h2 : route_root demo_parse_ip demo_parse_v4 no_parse_v6
      [("ip", "1.2.3.4")] none
      (FetchOutcome.ok good_ranges none : FetchOutcome Nat) =
      .value (.json_api
        { requested_ip := "1.2.3.4", cache_status := "UNKNOWN",
          match_list := [] }, some demo_resp_u) := by decide
  exact ⟨h1, hc.1 _ _ h1, h2, hc.2 _ _ h2⟩

/-- Claim C7, witness: the three validation failures at concrete requests,
each leaving a populated slot untouched. -/
theorem C7_param_errors_400_witness :
    route_root demo_parse_ip demo_parse_v4 no_parse_v6 [("other", "1")]
        (some demo_resp) (FetchOutcome.err 3 : FetchOutcome Nat) =
      .value (.error_resp "\"ip\" parameter is missing!" 400, some demo_resp) ∧
    route_root demo_parse_ip demo_parse_v4 no_parse_v6 [("ip", "")]
        (some demo_resp) (FetchOutcome.err 3 : FetchOutcome Nat) =
      .value (.error_resp "\"ip\" parameter is empty!" 400, some demo_resp) ∧
    route_root demo_parse_ip demo_parse_v4 no_parse_v6 [("ip", "zz")]
        (some demo_resp) (FetchOutcome.err 3 : FetchOutcome Nat) =
      .value (.error_resp "\"ip\" parameter is not a valid IP address!" 400,
        some demo_resp) := by
  refine ⟨?_, ?_, ?_⟩
  · exact (C7_param_errors_400 demo_parse_ip demo_parse_v4 no_parse_v6
      [("other", "1")] (some demo_resp)
      (FetchOutcome.err 3 : FetchOutcome Nat)).1 (by decide)
  · exact (C7_param_errors_400 demo_parse_ip demo_parse_v4 no_parse_v6
      [("ip", "")] (some demo_resp)
      (FetchOutcome.err 3 : FetchOutcome Nat)).2.1 "ip" "" (by decide) (by decide)
  · exact (C7_param_errors_400 demo_parse_ip demo_parse_v4 no_parse_v6
      [("ip", "zz")] (some demo_resp)
      (FetchOutcome.err 3 : FetchOutcome Nat)).2.2 "ip" "zz" (by decide)
      (by decide) (by decide)

/-- Claim C8, witness: 8.8.8.8 (value 134744072) is in no range of a
concrete one-entry dataset, and its v4 and v6 matches are both empty. -/
theorem C8_no_range_empty_matches_witness :
    (∀ e ∈ demo_resp.ranges.prefixes,
      rangeContainsV4 e.ipv4_prefix_compute 134744072 = false) ∧
    ip_match demo_resp.ranges (.v4 134744072) = [] ∧
    ip_match demo_resp.ranges (.v6 1) = [] := by
  have h4 : ∀ e ∈ demo_resp.ranges.prefixes,
      rangeContainsV4 e.ipv4_prefix_compute 134744072 = false := by decide
  have h6 : ∀ e ∈ demo_resp.ranges.ipv6_prefixes,
      rangeContainsV6 e.ipv6_prefix_compute 1 = false := by decide
  exact ⟨h4, (C8_no_range_empty_matches demo_resp.ranges 134744072 1).1 h4,
    (C8_no_range_empty_matches demo_resp.ranges 134744072 1).2 h6⟩

/-- Claim C10, witness: with the ip parameter given twice, the response is
the one computed from the first occurrence alone, and requested_ip echoes
the first occurrence. -/
theorem C10_first_ip_occurrence_witness :
    route_root demo_parse_ip demo_parse_v4 no_parse_v6
        [("ip", "1.2.3.4"), ("ip", "5.6.7.8")] none
        (FetchOutcome.ok good_ranges (some "MISS") : FetchOutcome Nat) =
      route_root demo_parse_ip demo_parse_v4 no_parse_v6 [("ip", "1.2.3.4")]
        none (FetchOutcome.ok good_ranges (some "MISS") : FetchOutcome Nat) ∧
    (([("ip", "1.2.3.4"), ("ip", "5.6.7.8")].find? fun i => i.1 == "ip").map
        (fun i => i.2)) = some "1.2.3.4" := by
  have hc := C10_first_ip_occurrence demo_parse_ip demo_parse_v4 no_parse_v6
    [("ip", "1.2.3.4"), ("ip", "5.6.7.8")] [("ip", "1.2.3.4")] none
    (FetchOutcome.ok good_ranges (some "MISS") : FetchOutcome Nat)
  have hrun : route_root demo_parse_ip demo_parse_v4 no_parse_v6
      [("ip", "1.2.3.4"), ("ip", "5.6.7.8")] none
      (FetchOutcome.ok good_ranges (some "MISS") : FetchOutcome Nat) =
      .value (.json_api
        { requested_ip := "1.2.3.4", cache_status := "MISS",
          match_list := [] }, some demo_resp) := by decide
  exact ⟨hc.1 (by decide), hc.2 _ _ hrun⟩
